import Mathlib

/-!
# NPI taxonomy finder — verification of the batch-lookup pipeline

Shallow embedding of the two drivers of the repository:
* `src/app.py` — the interactive (Streamlit) driver: `get_taxonomy_data`,
  `convert_df_to_excel`, and the batch loop inside `main`;
* `src/npi_lookup.py` — the CLI driver: `get_taxonomy_data` and
  `process_npi_file`.

Python strings are modelled as Lean `String` (a list of characters);
string-level primitives (`str.strip`, `str.replace`, `str.isdigit`) are
defined on `List Char` and mirror Python's semantics.  `str.isdigit` is
Unicode-aware: besides the ASCII digits it accepts other Unicode digit
characters (Arabic-Indic, Devanagari, superscript, subscript, fullwidth,
…); the model includes these representative ranges, so that acceptance is
genuinely wider than `0`-`9`, and omits only further digit scripts of the
same character class (none of which are whitespace or `'.'`).
`str.strip` strips the common whitespace characters (Lean's
`Char.isWhitespace`: space, tab, CR, LF), the fragment of Python's
whitespace set relevant here.
-/

namespace NPI

/-- Whitespace predicate used by the model of Python `str.strip`. -/
def pyWs (c : Char) : Bool := c.isWhitespace

/-- Model of Python `str.strip()` on the character list: drop whitespace
from the front, then from the back. -/
def pyStrip (s : List Char) : List Char :=
  (((s.dropWhile pyWs).reverse).dropWhile pyWs).reverse

/-- Model of Python `pat in s` (substring containment). -/
def containsSub (pat : List Char) : List Char → Bool
  | [] => pat.isPrefixOf []
  | c :: rest => pat.isPrefixOf (c :: rest) || containsSub pat rest

/-- The spreadsheet-coercion artifact removed by the interactive driver. -/
def dotZero : List Char := ['.', '0']

/-- Model of Python `s.replace('.0', '')`: a single left-to-right pass
removing each non-overlapping occurrence of the two-character pattern
`".0"` (so e.g. `"..00"` becomes `".0"`, exactly as in Python). -/
def removeDotZero : List Char → List Char
  | [] => []
  | [c] => [c]
  | c1 :: c2 :: rest =>
    if c1 = '.' ∧ c2 = '0' then removeDotZero rest
    else c1 :: removeDotZero (c2 :: rest)

/-- Model of the character class accepted by Python `str.isdigit()`: the
ASCII digits together with representative Unicode digit characters —
Arabic-Indic `٠`-`٩`, Extended Arabic-Indic `۰`-`۹`, Devanagari `०`-`९`,
the superscript digits `⁰¹²³` and `⁴`-`⁹`, the subscript digits `₀`-`₉`,
and the fullwidth digits `０`-`９`.  Python's predicate accepts further
scripts' digit characters of the same Unicode class; this fragment keeps
the essential fact that acceptance is not limited to `'0'`-`'9'` (and no
accepted character is whitespace or `'.'`). -/
def pyDigitChar (c : Char) : Bool :=
  c.isDigit
  || (0x660 ≤ c.val && c.val ≤ 0x669)
  || (0x6F0 ≤ c.val && c.val ≤ 0x6F9)
  || (0x966 ≤ c.val && c.val ≤ 0x96F)
  || c = '¹' || c = '²' || c = '³' || c = '⁰'
  || (0x2074 ≤ c.val && c.val ≤ 0x2079)
  || (0x2080 ≤ c.val && c.val ≤ 0x2089)
  || (0xFF10 ≤ c.val && c.val ≤ 0xFF19)

/-- Model of Python `str.isdigit()`: non-empty and every character a
digit character in the sense of `pyDigitChar`. -/
def pyIsDigit (s : String) : Bool := !s.data.isEmpty && s.data.all pyDigitChar

/-- Transcription of `str(npi).strip().replace('.0', '')` — the normalization of the
interactive driver (`src/app.py`, line 116). -/
def normalize (s : String) : String := ⟨removeDotZero (pyStrip s.data)⟩

/-- Transcription of `npi.strip()` — the normalization of the CLI driver
(`src/npi_lookup.py`, line 49). -/
def cliNormalize (s : String) : String := ⟨pyStrip s.data⟩

/-- Transcription of `len(npi) != 10 or not npi.isdigit()` — the malformedness test of the
interactive driver (`src/app.py`, line 121). -/
def appMalformed (npi : String) : Bool := npi.length != 10 || !pyIsDigit npi

/-- Transcription of `not npi.isdigit() or len(npi) != 10` — the malformedness test of the
CLI driver (`src/npi_lookup.py`, line 50). -/
def cliMalformed (npi : String) : Bool := !pyIsDigit npi || npi.length != 10

/-! ## Registry client (`get_taxonomy_data` in both drivers)

The remote interaction is modelled by an abstract `send` function mapping an
identifier to either an exception (`exn`: timeout, transport failure, or a
body that fails to parse as JSON — everything the Python `except` clause
catches, including the `IndexError` of `data['results'][0]` on an empty
`results` list, which we make explicit below) or a response with an HTTP
status code and a parsed body.  Only the JSON fields the code reads are
modelled; an `Option` is `none` when the key is absent. -/

/-- One element of `results[0]['taxonomies']`: the five keys the code reads
via `tax.get(key, '')`, each possibly absent. -/
structure TaxonomyJson where
  code : Option String
  desc : Option String
  primary : Option String
  state : Option String
  license : Option String
deriving DecidableEq, Repr

/-- One element of the `results` array; only `taxonomies` is read
(`results[0].get('taxonomies', [])`). -/
structure EntityJson where
  taxonomies : Option (List TaxonomyJson)
deriving DecidableEq, Repr

/-- The parsed response body; `result_count` and `results` possibly absent
(`data.get('result_count', 0)`, `'results' in data`). -/
structure ResponseBody where
  result_count : Option Int
  results : Option (List EntityJson)
deriving DecidableEq, Repr

/-- Outcome of one HTTP GET: an exception, or a status code with a parsed
JSON body. -/
inductive Transport where
  | exn : Transport
  | ok : Nat → ResponseBody → Transport
deriving DecidableEq, Repr

/-- Transcription of `get_taxonomy_data(npi_number)` (`src/app.py` lines 9-29,
`src/npi_lookup.py` lines 6-26; identical logic, they differ only in the
timeout value and the logging inside `except`, both absorbed into `send`).
Returns `[]` on exception, non-200 status, non-positive `result_count`,
missing `results`, empty `results` (Python raises `IndexError` inside the
`try`, caught by the `except`), or missing `taxonomies`. -/
def get_taxonomy_data (send : String → Transport) (npi_number : String) :
    List TaxonomyJson :=
  match send npi_number with
  | Transport.exn => []
  | Transport.ok status body =>
    if status = 200 then
      if 0 < body.result_count.getD 0 ∧ body.results.isSome then
        match body.results.getD [] with
        | [] => []
        | e :: _ => e.taxonomies.getD []
      else []
    else []

/-! ## Output rows and the batch loops

An output row is a Python dict; we model it as an association list in key
insertion order, because the interactive driver builds rows with *different
key sets* (malformed and not-found rows carry only `NPI` and
`Taxonomy Code`) and `pandas.DataFrame` derives its columns from the union
of the keys.  A missing key becomes `NaN` in the frame and an empty cell in
the exported sheet (`to_excel` default `na_rep=''`), which `cellValue`
reflects. -/

/-- A Python dict used as an output row: keys with values, in insertion
order. -/
def Row : Type := List (String × String)

instance : DecidableEq Row := by unfold Row; infer_instance

/-- The value a row contributes to a column of the exported sheet: the
dict's value if the key is present, and the empty cell otherwise. -/
def cellValue (r : Row) (key : String) : String :=
  match List.lookup key r with
  | some v => v
  | none => ""

/-- The keys of a row, in insertion order. -/
def rowKeys (r : Row) : List String := r.map Prod.fst

/-- Row appended for a taxonomy record (`src/app.py` lines 129-136,
`src/npi_lookup.py` lines 59-66; identical). -/
def foundRow (npi : String) (tax : TaxonomyJson) : Row :=
  [("NPI", npi),
   ("Taxonomy Code", tax.code.getD ""),
   ("Taxonomy Description", tax.desc.getD ""),
   ("Primary Taxonomy", tax.primary.getD ""),
   ("State", tax.state.getD ""),
   ("License", tax.license.getD "")]

/-- Row appended for a malformed identifier (`src/app.py` line 122). -/
def invalidRow (npi : String) : Row :=
  [("NPI", npi), ("Taxonomy Code", "Invalid Format")]

/-- Row appended by the interactive driver when the lookup yields no
records (`src/app.py` lines 138-141): only two keys. -/
def appNotFoundRow (npi : String) : Row :=
  [("NPI", npi), ("Taxonomy Code", "Not Found")]

/-- Row appended by the CLI driver when the lookup yields no records
(`src/npi_lookup.py` lines 69-76): all six keys, four of them empty. -/
def cliNotFoundRow (npi : String) : Row :=
  [("NPI", npi),
   ("Taxonomy Code", "Not Found"),
   ("Taxonomy Description", ""),
   ("Primary Taxonomy", ""),
   ("State", ""),
   ("License", "")]

/-- Observable effects of one loop iteration, in order: a remote call and a
pacing sleep (duration in milliseconds).  The per-item progress update of
the interactive driver is purely presentational and not recorded. -/
inductive Event where
  | call : String → Event
  | sleep : Nat → Event
deriving DecidableEq, Repr

/-- One iteration of the interactive driver's batch loop
(`src/app.py` lines 114-143): normalize, short-circuit malformed entries
with an `Invalid Format` row and no remote call, otherwise call the
registry, expand the records (or append a `Not Found` row), and sleep
0.05 s. -/
def appStep (send : String → Transport) (raw : String) :
    List Row × List Event :=
  let npi := normalize raw
  if appMalformed npi then
    ([invalidRow npi], [])
  else
    let taxonomies := get_taxonomy_data send npi
    (if taxonomies.isEmpty then [appNotFoundRow npi]
     else taxonomies.map (foundRow npi),
     [Event.call npi, Event.sleep 50])

/-- One iteration of the CLI driver's batch loop (`src/npi_lookup.py`
lines 48-79): strip, `continue` past malformed entries (no row, no call),
otherwise call the registry, expand the records (or append the six-field
`Not Found` row), and sleep 0.1 s. -/
def cliStep (send : String → Transport) (raw : String) :
    List Row × List Event :=
  let npi := cliNormalize raw
  if cliMalformed npi then
    ([], [])
  else
    let taxonomies := get_taxonomy_data send npi
    (if taxonomies.isEmpty then [cliNotFoundRow npi]
     else taxonomies.map (foundRow npi),
     [Event.call npi, Event.sleep 100])

/-- The rows accumulated by the interactive driver's batch loop over the
deduplicated identifier list, in iteration order (`output_rows` in
`src/app.py`). -/
def appRun (send : String → Transport) (npis : List String) : List Row :=
  (npis.map (fun raw => (appStep send raw).1)).flatten

/-- The event trace of the interactive driver's batch loop: one remote
call followed by one sleep per non-malformed identifier, strictly in
iteration order (the loop body is straight-line Python; there is no
concurrency). -/
def appTrace (send : String → Transport) (npis : List String) : List Event :=
  (npis.map (fun raw => (appStep send raw).2)).flatten

/-- The rows accumulated by the CLI driver's batch loop (`output_rows` in
`src/npi_lookup.py`). -/
def cliRun (send : String → Transport) (npis : List String) : List Row :=
  (npis.map (fun raw => (cliStep send raw).1)).flatten

/-- The event trace of the CLI driver's batch loop. -/
def cliTrace (send : String → Transport) (npis : List String) : List Event :=
  (npis.map (fun raw => (cliStep send raw).2)).flatten

/-- Holds (is `true`) iff every `call` event in the trace is immediately followed by a
`sleep` of the given duration — the pacing discipline the batch loops are
supposed to maintain. -/
def pacedAfterCalls (d : Nat) : List Event → Bool
  | [] => true
  | Event.call _ :: Event.sleep e :: rest => e == d && pacedAfterCalls d rest
  | Event.call _ :: _ => false
  | _ :: rest => pacedAfterCalls d rest

/-! ## Tabular exporter

`pandas.DataFrame(output_rows)` derives the column list as the union of the
rows' dict keys in first-appearance order; a row's missing key becomes
`NaN`.  `DataFrame.to_excel(..., index=False)` writes one sheet containing
a header row with the column names (prefixed by an empty index column iff
`index` is true), then one data row per DataFrame row, rendering `NaN` as
an empty cell (default `na_rep=''`). -/

/-- Folding one row's keys into an accumulated column list: append each key
not yet present, preserving first-appearance order. -/
def addRowKeys (acc : List String) (r : Row) : List String :=
  (rowKeys r).foldl (fun a k => if a.contains k then a else a ++ [k]) acc

/-- The columns of `pandas.DataFrame(rows)`: union of the rows' keys in
first-appearance order. -/
def dfColumns (rows : List Row) : List String :=
  rows.foldl addRowKeys []

/-- The six output columns, in the key order of a full row. -/
def resultColumns : List String :=
  ["NPI", "Taxonomy Code", "Taxonomy Description", "Primary Taxonomy",
   "State", "License"]

/-- The two keys of the interactive driver's malformed / not-found rows. -/
def shortColumns : List String := ["NPI", "Taxonomy Code"]

/-- The written spreadsheet, as observable content: sheet name, header row,
data rows. -/
structure Workbook where
  sheetName : String
  header : List String
  cells : List (List String)
deriving DecidableEq, Repr

/-- Model of `DataFrame(rows).to_excel(..., index=index, sheet_name=sheetName)`. -/
def to_excel (sheetName : String) (index : Bool) (rows : List Row) :
    Workbook :=
  let cols := dfColumns rows
  { sheetName := sheetName
    header := if index then "" :: cols else cols
    cells :=
      (rows.enum.map (fun p =>
        let base := cols.map (cellValue p.2)
        if index then toString p.1 :: base else base)) }

/-- Transcription of `convert_df_to_excel(df)` (`src/app.py` lines 33-41):
`df.to_excel(writer, index=False, sheet_name='Taxonomy Results')`. -/
def convert_df_to_excel (rows : List Row) : Workbook :=
  to_excel "Taxonomy Results" false rows

/-- Transcription of `result_df.to_excel(output_file_path, index=False)`
(`src/npi_lookup.py` line 84): pandas' default sheet name `'Sheet1'` is
used because the CLI driver passes none. -/
def cliExport (rows : List Row) : Workbook :=
  to_excel "Sheet1" false rows

/-- A stubbed transport returning two taxonomy records for any identifier,
used to exercise the found-rows expansion on a concrete input. -/
def sendTwo : String → Transport := fun _ =>
  Transport.ok 200
    (ResponseBody.mk (some 2)
      (some [EntityJson.mk (some
        [TaxonomyJson.mk (some "207Q00000X") (some "Family Medicine")
          (some "X") (some "CA") (some "A12345"),
         TaxonomyJson.mk (some "208D00000X") none none (some "NV") none])]))

/-! ## String-level lemmas -/

/-- The function `pyStrip` is leading trim followed by Mathlib's trailing trim. -/
theorem pyStrip_eq (s : List Char) :
    pyStrip s = List.rdropWhile pyWs (s.dropWhile pyWs) := rfl

/-- The two trims of a list concatenate back to it. -/
theorem rdropWhile_append_rtakeWhile (p : Char → Bool) (l : List Char) :
    l.rdropWhile p ++ l.rtakeWhile p = l := by
  rw [List.rdropWhile, List.rtakeWhile, ← List.reverse_append,
    List.takeWhile_append_dropWhile, List.reverse_reverse]

/-- The trimmed list `pyStrip s` sits inside `s` between two all-whitespace stretches. -/
theorem pyStrip_decomp (s : List Char) :
    ∃ a b, (∀ c ∈ a, pyWs c = true) ∧ (∀ c ∈ b, pyWs c = true) ∧
      s = a ++ pyStrip s ++ b := by
  refine ⟨s.takeWhile pyWs, (s.dropWhile pyWs).rtakeWhile pyWs, ?_, ?_, ?_⟩
  · intro c hc; exact List.mem_takeWhile_imp hc
  · intro c hc; exact List.mem_rtakeWhile_imp hc
  · rw [pyStrip_eq, List.append_assoc, rdropWhile_append_rtakeWhile,
      List.takeWhile_append_dropWhile]

/-- The element exposed at the head of a `dropWhile` fails the predicate. -/
theorem dropWhile_head_false {p : Char → Bool} {s l : List Char} {c : Char}
    (h : s.dropWhile p = c :: l) : p c = false := by
  cases hp : p c with
  | false => rfl
  | true =>
    exfalso
    have hidem := List.dropWhile_idempotent p s
    rw [h, List.dropWhile_cons, if_pos (by simp [hp])] at hidem
    have hlen := congrArg List.length hidem
    have hle : (List.dropWhile p l).length ≤ l.length :=
      (List.dropWhile_suffix p).sublist.length_le
    simp at hlen
    omega

/-- The function `pyStrip` leaves no leading whitespace. -/
theorem dropWhile_pyStrip (s : List Char) :
    (pyStrip s).dropWhile pyWs = pyStrip s := by
  rw [pyStrip_eq]
  obtain ⟨k, hk⟩ := List.rdropWhile_prefix pyWs (s.dropWhile pyWs)
  cases hr : List.rdropWhile pyWs (s.dropWhile pyWs) with
  | nil => rfl
  | cons c r' =>
    have ht : s.dropWhile pyWs = c :: (r' ++ k) := by
      rw [← hk, hr, List.cons_append]
    have hc : pyWs c = false := dropWhile_head_false ht
    rw [List.dropWhile_cons, if_neg (by simp [hc])]

/-- The function `pyStrip` is idempotent. -/
theorem pyStrip_idem (s : List Char) : pyStrip (pyStrip s) = pyStrip s := by
  rw [pyStrip_eq (pyStrip s), dropWhile_pyStrip, pyStrip_eq,
    List.rdropWhile_idempotent]

/-- Splitting a no-occurrence fact at a cons cell. -/
theorem containsSub_cons_false {pat : List Char} {c : Char} {rest : List Char}
    (h : containsSub pat (c :: rest) = false) :
    pat.isPrefixOf (c :: rest) = false ∧ containsSub pat rest = false := by
  simpa [containsSub] using h

/-- Being a prefix is preserved by extending the larger list on the right. -/
theorem isPrefixOf_append {pat t b : List Char}
    (h : pat.isPrefixOf t = true) : pat.isPrefixOf (t ++ b) = true := by
  induction pat generalizing t with
  | nil => simp [List.isPrefixOf]
  | cons p ps ih =>
    cases t with
    | nil => simp [List.isPrefixOf] at h
    | cons c t' =>
      simp only [List.isPrefixOf, Bool.and_eq_true] at h ⊢
      exact ⟨h.1, ih h.2⟩

/-- No occurrence in `a ++ t` gives no occurrence in `t`. -/
theorem containsSub_of_append_left {pat a t : List Char}
    (h : containsSub pat (a ++ t) = false) : containsSub pat t = false := by
  induction a with
  | nil => exact h
  | cons c a' ih => exact ih (containsSub_cons_false h).2

/-- No occurrence in `t ++ b` gives no occurrence in `t`. -/
theorem containsSub_of_append_right {pat t b : List Char}
    (h : containsSub pat (t ++ b) = false) : containsSub pat t = false := by
  induction t with
  | nil =>
    cases pat with
    | nil =>
      exfalso
      cases b with
      | nil => simp [containsSub, List.isPrefixOf] at h
      | cons x xs => simp [containsSub, List.isPrefixOf] at h
    | cons p ps => simp [containsSub, List.isPrefixOf]
  | cons c t' ih =>
    rw [List.cons_append] at h
    obtain ⟨h1, h2⟩ := containsSub_cons_false h
    simp only [containsSub, Bool.or_eq_false_iff]
    refine ⟨?_, ih h2⟩
    cases hp : pat.isPrefixOf (c :: t') with
    | false => rfl
    | true =>
      exfalso
      have : pat.isPrefixOf (c :: (t' ++ b)) = true := isPrefixOf_append hp
      rw [this] at h1
      simp at h1

/-- No occurrence in a list gives no occurrence in any middle segment. -/
theorem containsSub_of_middle {pat s a t b : List Char}
    (hs : s = a ++ t ++ b) (h : containsSub pat s = false) :
    containsSub pat t = false := by
  subst hs
  rw [List.append_assoc] at h
  exact containsSub_of_append_right (containsSub_of_append_left h)

/-- Stripping cannot create an occurrence of a pattern. -/
theorem containsSub_pyStrip {pat s : List Char}
    (h : containsSub pat s = false) : containsSub pat (pyStrip s) = false := by
  obtain ⟨a, b, _, _, hdec⟩ := pyStrip_decomp s
  exact containsSub_of_middle hdec h

/-- Python `str.replace('.0', '')` is the identity when `".0"` does not occur. -/
theorem removeDotZero_eq_self {s : List Char}
    (h : containsSub dotZero s = false) : removeDotZero s = s := by
  induction s with
  | nil => rfl
  | cons c rest ih =>
    cases rest with
    | nil => rfl
    | cons c2 rest' =>
      obtain ⟨h1, h2⟩ := containsSub_cons_false h
      rw [removeDotZero, if_neg, ih h2]
      rintro ⟨hc1, hc2⟩
      subst hc1
      subst hc2
      simp [dotZero, List.isPrefixOf] at h1

/-- A Python digit character is not whitespace. -/
theorem pyWs_eq_false_of_pyDigit {c : Char} (h : pyDigitChar c = true) :
    pyWs c = false := by
  cases hq : pyWs c with
  | false => rfl
  | true =>
    exfalso
    simp only [pyWs, Char.isWhitespace, Bool.or_eq_true, decide_eq_true_eq] at hq
    rcases hq with ((h1 | h1) | h1) | h1 <;>
      (subst h1; exact absurd h (by decide))

/-- An all-digit list has no leading whitespace to drop. -/
theorem dropWhile_eq_self_of_digits {l : List Char}
    (h : ∀ c ∈ l, pyDigitChar c = true) : l.dropWhile pyWs = l := by
  cases l with
  | nil => rfl
  | cons c rest =>
    have : pyWs c = false := pyWs_eq_false_of_pyDigit (h c (by simp))
    rw [List.dropWhile_cons, if_neg (by simp [this])]

/-- Stripping an all-digit list leaves it unchanged. -/
theorem pyStrip_eq_self_of_digits {l : List Char}
    (h : ∀ c ∈ l, pyDigitChar c = true) : pyStrip l = l := by
  rw [pyStrip_eq, dropWhile_eq_self_of_digits h, List.rdropWhile_eq_self_iff]
  intro hl
  have := pyWs_eq_false_of_pyDigit (h _ (List.getLast_mem hl))
  simp [this]

/-- An all-digit list contains no occurrence of `".0"` (no Python digit
character is the full stop). -/
theorem containsSub_dotZero_of_digits {l : List Char}
    (h : ∀ c ∈ l, pyDigitChar c = true) : containsSub dotZero l = false := by
  induction l with
  | nil => rfl
  | cons c rest ih =>
    simp only [containsSub, Bool.or_eq_false_iff]
    constructor
    · cases hp : dotZero.isPrefixOf (c :: rest) with
      | false => rfl
      | true =>
        exfalso
        simp only [dotZero, List.isPrefixOf, Bool.and_eq_true, beq_iff_eq] at hp
        have hc : pyDigitChar c = true := h c (by simp)
        rw [← hp.1] at hc
        exact absurd hc (by decide)
    · exact ih (fun c hc => h c (by simp [hc]))

/-- When the artifact is absent, the interactive normalization is just the
strip the CLI driver performs. -/
theorem normalize_eq_cliNormalize_of_no_dotZero {s : String}
    (h : containsSub dotZero s.data = false) : normalize s = cliNormalize s := by
  unfold normalize cliNormalize
  rw [removeDotZero_eq_self (containsSub_pyStrip h)]

/-- Unfolding of the interactive validity test: not malformed exactly when
the string is ten characters, all Python digit characters. -/
theorem appMalformed_false_iff (s : String) :
    appMalformed s = false ↔
      s.data.length = 10 ∧ ∀ c ∈ s.data, pyDigitChar c = true := by
  unfold appMalformed pyIsDigit
  constructor
  · intro h
    simp only [Bool.or_eq_false_iff, bne_eq_false_iff_eq, Bool.not_eq_false',
      Bool.and_eq_true, List.all_eq_true] at h
    exact ⟨h.1, h.2.2⟩
  · rintro ⟨h1, h2⟩
    have hne : s.data ≠ [] := by
      intro hn
      rw [hn] at h1
      simp at h1
    simp only [Bool.or_eq_false_iff, bne_eq_false_iff_eq, Bool.not_eq_false',
      Bool.and_eq_true, List.all_eq_true]
    refine ⟨h1, ?_, h2⟩
    simp [List.isEmpty_iff, hne]

/-- The two drivers test malformedness identically (the disjuncts are
written in the opposite order in the source). -/
theorem cliMalformed_eq_appMalformed (s : String) :
    cliMalformed s = appMalformed s := by
  unfold cliMalformed appMalformed
  cases h1 : s.length != 10 <;> cases h2 : !pyIsDigit s <;> simp [h1, h2]

/-- The predicate `Char.isDigit` says exactly that the character lies between `'0'` and
`'9'`. -/
theorem isDigit_iff_bounds (c : Char) :
    c.isDigit = true ↔ '0' ≤ c ∧ c ≤ '9' := by
  simp [Char.isDigit, Char.le_def]

/-- C3 counterexample: the ten-character string of superscript-two
characters passes Python `str.isdigit` and the length test, so both
drivers classify it Valid, yet its characters are not decimal digits
`0`-`9` — the claim's "no other character is accepted" is false of the
program. -/
theorem classify_accepts_nonascii_digits :
    appMalformed "²²²²²²²²²²" = false ∧
    cliMalformed "²²²²²²²²²²" = false ∧
    ("²²²²²²²²²²" : String).data.length = 10 ∧
    '²' ∈ ("²²²²²²²²²²" : String).data ∧
    ¬('0' ≤ '²' ∧ '²' ≤ '9') := by
  exact ⟨by decide, by decide, by decide, by decide, by decide⟩

/-- C3 (amended): for every normalized identifier string, classification
returns Valid if and only if the string has length exactly 10 and every
character passes Python `str.isdigit` — a predicate that accepts every
ASCII decimal digit `'0'`-`'9'` but also further Unicode digit characters
(superscript, Arabic-Indic, fullwidth, …), so the accepted alphabet is
not limited to `0`-`9`; no checksum is applied, and both drivers use the
same test (`Valid` is the `false` branch of the malformedness test). -/
theorem classify_valid_iff_ten_pydigits (s : String) :
    (appMalformed s = false ↔
      s.data.length = 10 ∧ ∀ c ∈ s.data, pyDigitChar c = true) ∧
    (∀ c : Char, '0' ≤ c ∧ c ≤ '9' → pyDigitChar c = true) ∧
    cliMalformed s = appMalformed s := by
  refine ⟨appMalformed_false_iff s, ?_, cliMalformed_eq_appMalformed s⟩
  intro c hc
  unfold pyDigitChar
  simp [(isDigit_iff_bounds c).mpr hc]

/-- C3 witness: the amended theorem instantiated at the spec's example
`"1234567893"`, whose characters are plain ASCII digits. -/
theorem classify_valid_iff_ten_pydigits_witness :
    (appMalformed "1234567893" = false ↔
      ("1234567893" : String).data.length = 10 ∧
        ∀ c ∈ ("1234567893" : String).data, pyDigitChar c = true) ∧
    (∀ c : Char, '0' ≤ c ∧ c ≤ '9' → pyDigitChar c = true) ∧
    cliMalformed "1234567893" = appMalformed "1234567893" :=
  classify_valid_iff_ten_pydigits "1234567893"

/-- C2 counterexample: the CLI driver does not remove `".0"` — on the raw
cell `" 1.0 "` it returns `"1.0"`, while trimming-and-removing (what the
claim asserts of both drivers, and what the interactive driver does) yields
`"1"`. -/
theorem cli_normalization_keeps_dotZero :
    cliNormalize " 1.0 " = "1.0" ∧ normalize " 1.0 " = "1" ∧
      ("1.0" : String) ≠ "1" := by
  refine ⟨by decide, by decide, by decide⟩

/-- C2 (amended): both drivers trim surrounding whitespace (the returned
token sits inside the raw string between two all-whitespace stretches and
itself starts and ends with non-whitespace); the interactive driver
additionally removes every literal occurrence of `".0"` from the trimmed
token (a one-pass textual replace), while the CLI driver performs no
removal. -/
theorem normalization_trim_and_remove (s : String) :
    (∃ a b, (∀ c ∈ a, pyWs c = true) ∧ (∀ c ∈ b, pyWs c = true) ∧
        s.data = a ++ (cliNormalize s).data ++ b) ∧
    (cliNormalize s).data.dropWhile pyWs = (cliNormalize s).data ∧
    (cliNormalize s).data.rdropWhile pyWs = (cliNormalize s).data ∧
    normalize s = ⟨removeDotZero (cliNormalize s).data⟩ := by
  refine ⟨pyStrip_decomp s.data, dropWhile_pyStrip s.data, ?_, rfl⟩
  show (pyStrip s.data).rdropWhile pyWs = pyStrip s.data
  rw [pyStrip_eq, List.rdropWhile_idempotent]

/-- C2 witness: the amended theorem instantiated at `" 1.0 "`. -/
theorem normalization_trim_and_remove_witness :
    (∃ a b, (∀ c ∈ a, pyWs c = true) ∧ (∀ c ∈ b, pyWs c = true) ∧
        (" 1.0 " : String).data = a ++ (cliNormalize " 1.0 ").data ++ b) ∧
    (cliNormalize " 1.0 ").data.dropWhile pyWs = (cliNormalize " 1.0 ").data ∧
    (cliNormalize " 1.0 ").data.rdropWhile pyWs =
      (cliNormalize " 1.0 ").data ∧
    normalize " 1.0 " = ⟨removeDotZero (cliNormalize " 1.0 ").data⟩ :=
  normalization_trim_and_remove " 1.0 "

/-- C9: normalization is idempotent on strings free of the `".0"`
artifact. -/
theorem normalize_idempotent_of_no_dotZero (s : String)
    (h : containsSub dotZero s.data = false) :
    normalize (normalize s) = normalize s := by
  have h2 : containsSub dotZero (cliNormalize s).data = false :=
    containsSub_pyStrip h
  rw [normalize_eq_cliNormalize_of_no_dotZero h]
  rw [normalize_eq_cliNormalize_of_no_dotZero (s := cliNormalize s) h2]
  exact congrArg String.mk (pyStrip_idem s.data)

/-- C9 witness: the theorem instantiated at `" 123 "`, which contains no
`".0"`. -/
theorem normalize_idempotent_of_no_dotZero_witness :
    containsSub dotZero (" 123 " : String).data = false ∧
      normalize (normalize " 123 ") = normalize " 123 " :=
  ⟨by decide, normalize_idempotent_of_no_dotZero " 123 " (by decide)⟩

/-- C10 (implicit): normalization is the identity on already-valid
identifiers — a string that classifies as Valid has no whitespace to trim
and no `".0"` to remove — so the `NPI` field of every row the interactive
driver appends for it is exactly the validated token, and the remote call
is made with that same token. -/
theorem normalize_identity_on_valid (s : String) (send : String → Transport)
    (h : appMalformed s = false) :
    normalize s = s ∧
    (∀ r ∈ (appStep send s).1, cellValue r "NPI" = s) ∧
    (appStep send s).2 = [Event.call s, Event.sleep 50] := by
  have hd : ∀ c ∈ s.data, pyDigitChar c = true := ((appMalformed_false_iff s).mp h).2
  have hns : normalize s = s := by
    unfold normalize
    rw [pyStrip_eq_self_of_digits hd,
      removeDotZero_eq_self (containsSub_dotZero_of_digits hd)]
  refine ⟨hns, ?_, ?_⟩
  · intro r hr
    simp only [appStep, hns, h] at hr
    by_cases he : (get_taxonomy_data send s).isEmpty
    · simp [he] at hr
      subst hr
      rfl
    · simp [he] at hr
      obtain ⟨t, _, rfl⟩ := hr
      rfl
  · simp [appStep, hns, h]

/-- C10 witness: the theorem instantiated at the valid identifier
`"1234567893"` with a failing transport. -/
theorem normalize_identity_on_valid_witness :
    appMalformed "1234567893" = false ∧
    normalize "1234567893" = "1234567893" ∧
    (∀ r ∈ (appStep (fun _ => Transport.exn) "1234567893").1,
      cellValue r "NPI" = "1234567893") ∧
    (appStep (fun _ => Transport.exn) "1234567893").2 =
      [Event.call "1234567893", Event.sleep 50] :=
  ⟨by decide,
    normalize_identity_on_valid "1234567893" (fun _ => Transport.exn)
      (by decide)⟩

/-- C4: the registry lookup is a total function of the transport outcome
and never raises; on an exception (timeout or transport failure), on a
non-success status code, on a non-positive result count, on a missing or
empty `results` array, it returns the empty taxonomy list — the same value
as a genuine no-data response. -/
theorem lookup_absorbs_failures (send : String → Transport) (npi : String)
    (h : send npi = Transport.exn ∨
      ∃ st body, send npi = Transport.ok st body ∧
        (st ≠ 200 ∨ body.result_count.getD 0 ≤ 0 ∨ body.results = none ∨
          body.results = some [])) :
    get_taxonomy_data send npi = [] := by
  rcases h with h | ⟨st, body, hs, hcond⟩
  · simp [get_taxonomy_data, h]
  · rcases hcond with h1 | h1 | h1 | h1
    · simp [get_taxonomy_data, hs, h1]
    · simp only [get_taxonomy_data, hs]
      split
      · have hneg : ¬(0 < body.result_count.getD 0 ∧ body.results.isSome) :=
          fun hc => by omega
        rw [if_neg hneg]
      · rfl
    · simp [get_taxonomy_data, hs, h1]
    · simp [get_taxonomy_data, hs, h1]

/-- C4 witness: the lookup on a failing transport returns the empty
list. -/
theorem lookup_absorbs_failures_witness :
    (fun (_ : String) => Transport.exn) "1234567893" = Transport.exn ∧
    get_taxonomy_data (fun _ => Transport.exn) "1234567893" = [] :=
  ⟨rfl, lookup_absorbs_failures (fun _ => Transport.exn) "1234567893"
    (Or.inl rfl)⟩

/-- Every iteration of the interactive batch loop appends at least one
row. -/
theorem appStep_rows_len_pos (send : String → Transport) (raw : String) :
    1 ≤ (appStep send raw).1.length := by
  simp only [appStep]
  by_cases h : appMalformed (normalize raw)
  · simp [h]
  · simp only [h, Bool.false_eq_true, if_false]
    by_cases he : (get_taxonomy_data send (normalize raw)).isEmpty
    · simp [he]
    · have hne : get_taxonomy_data send (normalize raw) ≠ [] := by
        intro hnil
        rw [hnil] at he
        simp at he
      have hp : 0 < (get_taxonomy_data send (normalize raw)).length :=
        List.length_pos.mpr hne
      simp [he, List.length_map]
      omega

/-- The interactive batch produces at least one row per input
identifier. -/
theorem appRun_length_ge (send : String → Transport) (npis : List String) :
    npis.length ≤ (appRun send npis).length := by
  induction npis with
  | nil => simp [appRun]
  | cons raw rest ih =>
    have h1 := appStep_rows_len_pos send raw
    simp only [appRun, List.map_cons, List.flatten_cons, List.length_append,
      List.length_cons] at *
    omega

/-- C1 counterexample: the CLI driver (`process_npi_file`) skips a
malformed identifier with `continue`, appending no row at all — the batch
over the single identifier `"123"` produces an empty ResultTable, so that
input identifier is dropped from the output, contradicting the claim for
the cited CLI loop. -/
theorem cli_batch_drops_malformed :
    cliRun (fun _ => Transport.exn) ["123"] = [] := by decide

/-- C1 (amended): in the interactive driver every identifier appends at
least one row — a malformed one exactly one row carrying the fixed
sentinel `"Invalid Format"` in the Taxonomy Code field, with no remote
call (empty event list) — so no identifier is dropped there; the CLI
driver instead skips a malformed identifier entirely: no row and no
remote call. -/
theorem batch_no_drops (send : String → Transport) (npis : List String)
    (raw : String) :
    1 ≤ (appStep send raw).1.length ∧
    npis.length ≤ (appRun send npis).length ∧
    (appMalformed (normalize raw) = true →
      appStep send raw = ([invalidRow (normalize raw)], []) ∧
      cellValue (invalidRow (normalize raw)) "Taxonomy Code" =
        "Invalid Format") ∧
    (cliMalformed (cliNormalize raw) = true → cliStep send raw = ([], [])) := by
  refine ⟨appStep_rows_len_pos send raw, appRun_length_ge send npis, ?_, ?_⟩
  · intro h
    exact ⟨by simp [appStep, h], rfl⟩
  · intro h
    simp [cliStep, h]

/-- C1 witness: the amended theorem instantiated at the malformed
identifier `"123"` and a two-identifier batch. -/
theorem batch_no_drops_witness :
    appMalformed (normalize "123") = true ∧
    cliMalformed (cliNormalize "123") = true ∧
    1 ≤ (appStep (fun _ => Transport.exn) "123").1.length ∧
    (["123", "1234567893"] : List String).length ≤
      (appRun (fun _ => Transport.exn) ["123", "1234567893"]).length ∧
    appStep (fun _ => Transport.exn) "123" =
      ([invalidRow (normalize "123")], []) ∧
    cellValue (invalidRow (normalize "123")) "Taxonomy Code" =
      "Invalid Format" ∧
    cliStep (fun _ => Transport.exn) "123" = ([], []) := by
  have h := batch_no_drops (fun _ => Transport.exn) ["123", "1234567893"] "123"
  exact ⟨by decide, by decide, h.1, h.2.1, (h.2.2.1 (by decide)).1,
    (h.2.2.1 (by decide)).2, h.2.2.2 (by decide)⟩

/-- C5: for a valid identifier whose registry lookup returns `k ≥ 1`
taxonomy records (the client already restricts to the first registered
entity's list), both batch loops append exactly `k` rows, with the NPI
repeated in each row and `code`/`desc`/`primary`/`state`/`license` mapped
1:1 into the five taxonomy columns, a missing sub-field defaulting to the
empty string. -/
theorem found_rows_map_records (send : String → Transport) (raw : String) :
    (appMalformed (normalize raw) = false →
      get_taxonomy_data send (normalize raw) ≠ [] →
      (appStep send raw).1 =
        (get_taxonomy_data send (normalize raw)).map (fun t =>
          [("NPI", normalize raw),
           ("Taxonomy Code", t.code.getD ""),
           ("Taxonomy Description", t.desc.getD ""),
           ("Primary Taxonomy", t.primary.getD ""),
           ("State", t.state.getD ""),
           ("License", t.license.getD "")]) ∧
      (appStep send raw).1.length =
        (get_taxonomy_data send (normalize raw)).length) ∧
    (cliMalformed (cliNormalize raw) = false →
      get_taxonomy_data send (cliNormalize raw) ≠ [] →
      (cliStep send raw).1 =
        (get_taxonomy_data send (cliNormalize raw)).map (fun t =>
          [("NPI", cliNormalize raw),
           ("Taxonomy Code", t.code.getD ""),
           ("Taxonomy Description", t.desc.getD ""),
           ("Primary Taxonomy", t.primary.getD ""),
           ("State", t.state.getD ""),
           ("License", t.license.getD "")]) ∧
      (cliStep send raw).1.length =
        (get_taxonomy_data send (cliNormalize raw)).length) := by
  constructor
  · intro h1 h2
    have he : (get_taxonomy_data send (normalize raw)).isEmpty = false := by
      simp [List.isEmpty_iff, h2]
    constructor
    · simp only [appStep, h1, Bool.false_eq_true, if_false, he]
      rfl
    · simp [appStep, h1, he, List.length_map]
  · intro h1 h2
    have he : (get_taxonomy_data send (cliNormalize raw)).isEmpty = false := by
      simp [List.isEmpty_iff, h2]
    constructor
    · simp only [cliStep, h1, Bool.false_eq_true, if_false, he]
      rfl
    · simp [cliStep, h1, he, List.length_map]

/-- C5 witness: a stub returning two records for `"1234567893"` yields
exactly those two rows. -/
theorem found_rows_map_records_witness :
    appMalformed (normalize "1234567893") = false ∧
    get_taxonomy_data sendTwo (normalize "1234567893") ≠ [] ∧
    (appStep sendTwo "1234567893").1 =
      (get_taxonomy_data sendTwo (normalize "1234567893")).map (fun t =>
        [("NPI", normalize "1234567893"),
         ("Taxonomy Code", t.code.getD ""),
         ("Taxonomy Description", t.desc.getD ""),
         ("Primary Taxonomy", t.primary.getD ""),
         ("State", t.state.getD ""),
         ("License", t.license.getD "")]) ∧
    (appStep sendTwo "1234567893").1.length =
      (get_taxonomy_data sendTwo (normalize "1234567893")).length := by
  have h := (found_rows_map_records sendTwo "1234567893").1 (by decide)
    (by decide)
  exact ⟨by decide, by decide, h.1, h.2⟩

/-- C6: for a valid identifier whose lookup yields no records, the
interactive driver appends exactly one row carrying the sentinel
`"Not Found"` in the Taxonomy Code field whose four remaining exported
cells are empty (its dict lacks those keys; the exporter renders a missing
key as an empty cell), and the CLI driver appends exactly one six-field
row with the sentinel and four explicitly empty fields. -/
theorem not_found_single_row (send : String → Transport) (raw : String) :
    (appMalformed (normalize raw) = false →
      get_taxonomy_data send (normalize raw) = [] →
      (appStep send raw).1 =
        [[("NPI", normalize raw), ("Taxonomy Code", "Not Found")]] ∧
      ∀ f ∈ ["Taxonomy Description", "Primary Taxonomy", "State", "License"],
        cellValue [("NPI", normalize raw), ("Taxonomy Code", "Not Found")]
          f = "") ∧
    (cliMalformed (cliNormalize raw) = false →
      get_taxonomy_data send (cliNormalize raw) = [] →
      (cliStep send raw).1 =
        [[("NPI", cliNormalize raw), ("Taxonomy Code", "Not Found"),
          ("Taxonomy Description", ""), ("Primary Taxonomy", ""),
          ("State", ""), ("License", "")]] ∧
      ∀ f ∈ ["Taxonomy Description", "Primary Taxonomy", "State", "License"],
        cellValue
          [("NPI", cliNormalize raw), ("Taxonomy Code", "Not Found"),
           ("Taxonomy Description", ""), ("Primary Taxonomy", ""),
           ("State", ""), ("License", "")] f = "") := by
  constructor
  · intro h1 h2
    constructor
    · simp [appStep, h1, h2, appNotFoundRow]
    · intro f hf
      fin_cases hf <;> rfl
  · intro h1 h2
    constructor
    · simp [cliStep, h1, h2, cliNotFoundRow]
    · intro f hf
      fin_cases hf <;> rfl

/-- C6 witness: the theorem instantiated at the valid identifier
`"9999999999"` with a transport that always fails (hence an empty
taxonomy list). -/
theorem not_found_single_row_witness :
    appMalformed (normalize "9999999999") = false ∧
    get_taxonomy_data (fun _ => Transport.exn) (normalize "9999999999") =
      [] ∧
    (appStep (fun _ => Transport.exn) "9999999999").1 =
      [[("NPI", normalize "9999999999"), ("Taxonomy Code", "Not Found")]] ∧
    ∀ f ∈ ["Taxonomy Description", "Primary Taxonomy", "State", "License"],
      cellValue
        [("NPI", normalize "9999999999"), ("Taxonomy Code", "Not Found")]
        f = "" := by
  have h := (not_found_single_row (fun _ => Transport.exn) "9999999999").1
    (by decide) (by decide)
  exact ⟨by decide, by decide, h.1, h.2⟩

/-- A `call` immediately followed by the matching `sleep` reduces the
pacing check to the remainder of the trace. -/
theorem pacedAfterCalls_call_sleep (d : Nat) (x : String) (t : List Event) :
    pacedAfterCalls d (Event.call x :: Event.sleep d :: t) =
      pacedAfterCalls d t := by
  simp [pacedAfterCalls]

/-- C8: both batch loops are a single straight-line iteration (the event
trace is one flat list, so remote calls are strictly sequential with no
concurrency), and every remote-call event is immediately followed by the
fixed pacing sleep (0.05 s interactive, 0.1 s CLI) before any later
identifier is processed — in particular between any two call events a
sleep of the fixed duration occurs. -/
theorem pacing_after_every_lookup (send : String → Transport)
    (npis : List String) :
    pacedAfterCalls 50 (appTrace send npis) = true ∧
    pacedAfterCalls 100 (cliTrace send npis) = true := by
  constructor
  · induction npis with
    | nil => rfl
    | cons raw rest ih =>
      simp only [appTrace, List.map_cons, List.flatten_cons] at *
      by_cases h : appMalformed (normalize raw)
      · simpa [appStep, h] using ih
      · simp only [appStep, h, Bool.false_eq_true, if_false,
          List.cons_append, List.nil_append]
        rw [pacedAfterCalls_call_sleep]
        exact ih
  · induction npis with
    | nil => rfl
    | cons raw rest ih =>
      simp only [cliTrace, List.map_cons, List.flatten_cons] at *
      by_cases h : cliMalformed (cliNormalize raw)
      · simpa [cliStep, h] using ih
      · simp only [cliStep, h, Bool.false_eq_true, if_false,
          List.cons_append, List.nil_append]
        rw [pacedAfterCalls_call_sleep]
        exact ih

/-- C8 witness: the theorem instantiated at a concrete mixed batch. -/
theorem pacing_after_every_lookup_witness :
    pacedAfterCalls 50
      (appTrace (fun _ => Transport.exn) ["123", "1234567893"]) = true ∧
    pacedAfterCalls 100
      (cliTrace (fun _ => Transport.exn) ["123", "1234567893"]) = true :=
  pacing_after_every_lookup (fun _ => Transport.exn) ["123", "1234567893"]

/-- The fold step `addRowKeys` only looks at a row through its key list. -/
theorem addRowKeys_eq (acc : List String) (r : Row) :
    addRowKeys acc r =
      (rowKeys r).foldl (fun a k => if a.contains k then a else a ++ [k])
        acc := rfl

/-- Once all six columns are accumulated, further rows of either shape
change nothing. -/
theorem dfColumns_fold_six (rows : List Row) :
    (∀ r ∈ rows, rowKeys r = shortColumns ∨ rowKeys r = resultColumns) →
    List.foldl addRowKeys resultColumns rows = resultColumns := by
  induction rows with
  | nil => intro _; rfl
  | cons r rest ih =>
    intro h
    have hstep : addRowKeys resultColumns r = resultColumns := by
      rcases h r (by simp) with hk | hk <;> (rw [addRowKeys_eq, hk]; decide)
    rw [List.foldl_cons, hstep]
    exact ih (fun x hx => h x (by simp [hx]))

/-- From the two-column accumulator, the six columns are reached exactly
when some row carries all six keys. -/
theorem dfColumns_fold_short (rows : List Row) :
    (∀ r ∈ rows, rowKeys r = shortColumns ∨ rowKeys r = resultColumns) →
    (∃ r ∈ rows, rowKeys r = resultColumns) →
    List.foldl addRowKeys shortColumns rows = resultColumns := by
  induction rows with
  | nil =>
    intro _ hsix
    obtain ⟨r, hr, _⟩ := hsix
    simp at hr
  | cons r rest ih =>
    intro h hsix
    rcases h r (by simp) with hk | hk
    · have hstep : addRowKeys shortColumns r = shortColumns := by
        rw [addRowKeys_eq, hk]
        decide
      rw [List.foldl_cons, hstep]
      apply ih (fun x hx => h x (by simp [hx]))
      obtain ⟨x, hx, hxx⟩ := hsix
      rcases List.mem_cons.mp hx with rfl | hx2
      · rw [hk] at hxx
        exact absurd hxx (by decide)
      · exact ⟨x, hx2, hxx⟩
    · have hstep : addRowKeys shortColumns r = resultColumns := by
        rw [addRowKeys_eq, hk]
        decide
      rw [List.foldl_cons, hstep]
      exact dfColumns_fold_six rest (fun x hx => h x (by simp [hx]))

/-- The DataFrame columns of a batch result table are the six result
columns exactly when some row carries all six keys. -/
theorem dfColumns_result (rows : List Row)
    (h : ∀ r ∈ rows, rowKeys r = shortColumns ∨ rowKeys r = resultColumns)
    (hsix : ∃ r ∈ rows, rowKeys r = resultColumns) :
    dfColumns rows = resultColumns := by
  cases rows with
  | nil =>
    obtain ⟨r, hr, _⟩ := hsix
    simp at hr
  | cons r rest =>
    unfold dfColumns
    rw [List.foldl_cons]
    rcases h r (by simp) with hk | hk
    · have hstep : addRowKeys [] r = shortColumns := by
        rw [addRowKeys_eq, hk]
        decide
      rw [hstep]
      apply dfColumns_fold_short rest (fun x hx => h x (by simp [hx]))
      obtain ⟨x, hx, hxx⟩ := hsix
      rcases List.mem_cons.mp hx with rfl | hx2
      · rw [hk] at hxx
        exact absurd hxx (by decide)
      · exact ⟨x, hx2, hxx⟩
    · have hstep : addRowKeys [] r = resultColumns := by
        rw [addRowKeys_eq, hk]
        decide
      rw [hstep]
      exact dfColumns_fold_six rest (fun x hx => h x (by simp [hx]))

/-- Mapping a function of the element over an enumeration forgets the
indices. -/
theorem enumFrom_map_snd_map {α β : Type} (f : α → β) (n : Nat)
    (l : List α) :
    (List.enumFrom n l).map (fun p => f p.2) = l.map f := by
  induction l generalizing n with
  | nil => rfl
  | cons a as ih => simp [List.enumFrom_cons, ih]

/-- C7 counterexample: the claim fails on both cited exporters — the
interactive DataFrame built from a batch whose only row is a malformed
entry has just the two keys `NPI` and `Taxonomy Code` as its header, not
the six claimed columns, and the CLI export carries pandas' default sheet
name `"Sheet1"`, not `"Taxonomy Results"`. -/
theorem export_header_and_sheet_counterexample :
    (convert_df_to_excel (appRun (fun _ => Transport.exn) ["123"])).header =
      ["NPI", "Taxonomy Code"] ∧
    (["NPI", "Taxonomy Code"] : List String) ≠ resultColumns ∧
    (cliExport (cliRun (fun _ => Transport.exn) ["1234567893"])).sheetName =
      "Sheet1" ∧
    ("Sheet1" : String) ≠ "Taxonomy Results" := by
  exact ⟨by decide, by decide, by decide, by decide⟩

/-- C7 (amended): the interactive exporter writes one sheet with the fixed
name `"Taxonomy Results"`, one data row per OutputRow and no index
column; its header is the first-appearance union of the rows' dict keys,
which equals the six result columns exactly when at least one row carries
all six keys (i.e. some identifier was Found); a row's missing keys export
as empty cells.  The CLI exporter writes the same table under pandas'
default sheet name `"Sheet1"`. -/
theorem export_layout (rows : List Row)
    (hshape : ∀ r ∈ rows, rowKeys r = shortColumns ∨ rowKeys r = resultColumns)
    (hsix : ∃ r ∈ rows, rowKeys r = resultColumns) :
    (convert_df_to_excel rows).sheetName = "Taxonomy Results" ∧
    (convert_df_to_excel rows).header = resultColumns ∧
    (convert_df_to_excel rows).cells.length = rows.length ∧
    (convert_df_to_excel rows).cells =
      rows.map (fun r => resultColumns.map (cellValue r)) ∧
    (cliExport rows).sheetName = "Sheet1" := by
  have hcols : dfColumns rows = resultColumns := dfColumns_result rows hshape hsix
  refine ⟨rfl, ?_, ?_, ?_, rfl⟩
  · simp [convert_df_to_excel, to_excel, hcols]
  · simp [convert_df_to_excel, to_excel]
  · simp only [convert_df_to_excel, to_excel, hcols, Bool.false_eq_true,
      if_false]
    exact enumFrom_map_snd_map (fun r => resultColumns.map (cellValue r)) 0
      rows

/-- C7 witness: the amended theorem instantiated at the table produced by
a batch containing one malformed identifier and one Found identifier with
two records. -/
theorem export_layout_witness :
    (∀ r ∈ appRun sendTwo ["123", "1234567893"],
      rowKeys r = shortColumns ∨ rowKeys r = resultColumns) ∧
    (∃ r ∈ appRun sendTwo ["123", "1234567893"],
      rowKeys r = resultColumns) ∧
    (convert_df_to_excel (appRun sendTwo ["123", "1234567893"])).sheetName =
      "Taxonomy Results" ∧
    (convert_df_to_excel (appRun sendTwo ["123", "1234567893"])).header =
      resultColumns ∧
    (convert_df_to_excel
        (appRun sendTwo ["123", "1234567893"])).cells.length =
      (appRun sendTwo ["123", "1234567893"]).length ∧
    (convert_df_to_excel (appRun sendTwo ["123", "1234567893"])).cells =
      (appRun sendTwo ["123", "1234567893"]).map
        (fun r => resultColumns.map (cellValue r)) ∧
    (cliExport (appRun sendTwo ["123", "1234567893"])).sheetName =
      "Sheet1" := by
  have h := export_layout (appRun sendTwo ["123", "1234567893"]) (by decide)
    (by decide)
  exact ⟨by decide, by decide, h.1, h.2.1, h.2.2.1, h.2.2.2.1, h.2.2.2.2⟩

end NPI
